import Mathlib

/-!
# Verification of the cpp-async task / task_completion_source state machine

Shallow embedding of the lock-free single-producer / single-consumer task
primitive from `include/async/task.h`, `include/async/awaitable_result.h`,
`include/async/task_completion_source.h`, `include/async/awaitable_then.h`
and the symmetric-transfer variant in `include/task.h`.

The C++ coordination word is a `void*` multiplexing three sentinel pointer
values (the task_state's own address = Running, the address of its `result`
member = Ready, `nullptr` = Terminal/done) with the address of a registered
continuation's coroutine frame.  We model pointer values as `Nat`, with the
two object-identity sentinels carried explicitly in an `Addrs` record and
`nullptr` as `0`.  Exceptions (`std::exception_ptr` payloads) are an abstract
type `ε`; identity of exceptions is equality in `ε`.  Coroutine resumption
from another frame is modelled by an environment `resume : Nat → Option ε`
giving, for each continuation handle address, the exception (if any) that
resuming it raises.
-/

namespace CppAsync

/-- The two nonzero sentinel pointer values of a `task_state`:
`running = (void*)this` (`running_state()`, async/task.h:30) and
`ready = (void*)&result` (`ready_state()`, async/task.h:32).  `done_state()`
is `nullptr`, i.e. `0`.  In C++ these are distinct object addresses, distinct
from any coroutine frame address; theorems carry that distinctness as
hypotheses where they need it. -/
structure Addrs where
  running : Nat
  ready : Nat
deriving DecidableEq, Repr

/-- Sentinel distinctness guaranteed by object identity in C++:
both sentinels are real object addresses (nonzero) and are addresses of
distinct objects. -/
def Addrs.wf (a : Addrs) : Prop :=
  a.running ≠ 0 ∧ a.ready ≠ 0 ∧ a.running ≠ a.ready

instance (a : Addrs) : Decidable a.wf := by
  unfold Addrs.wf; infer_instance

/-- Errors surfaced by the embedded operations.  `carried e` is a rethrown
stored `std::exception_ptr` (same identity `e`); the other constructors are
the distinct `std::runtime_error` / `std::invalid_argument` usage errors the
source throws, one constructor per distinct message. -/
inductive TaskError (ε : Type) where
  /-- rethrow of a stored exception, same identity -/
  | carried (e : ε)
  /-- "task<T> may be co_awaited (or have await_suspend() used) only once." -/
  | awaitSuspendUsedTwice
  /-- "task<T> may be co_awaited (or have await_resume() used) only once." -/
  | awaitResumeUsedTwice
  /-- "task<T>.await_resume() may not be called before await_ready() returns true." -/
  | notYetReady
  /-- "Awaitable result is not yet available." -/
  | resultNotAvailable
  /-- "The task_completion_source<T> has already been completed." -/
  | alreadyCompleted
  /-- "The exception_ptr must not be empty." -/
  | invalidArgument
deriving DecidableEq, Repr

/-- Embeds `awaitable_result<T>` (awaitable_result.h:13-118): tagged storage holding
nothing, a value, or a captured exception (`result_union_type`). -/
inductive awaitable_result (ε α : Type) where
  | unset
  | value (v : α)
  | exception (e : ε)
deriving DecidableEq, Repr

namespace awaitable_result

/-- Embeds `awaitable_result<T>::operator()` (awaitable_result.h:55-71): rethrows a
stored exception, returns a stored value, and reports "not yet available" when
unset. -/
def run {ε α : Type} : awaitable_result ε α → Except (TaskError ε) α
  | .exception e => .error (.carried e)
  | .value v => .ok v
  | .unset => .error .resultNotAvailable

/-- Embeds `awaitable_result<T>::set_value` (awaitable_result.h:73-77): stores the
value and tags the storage as holding a value. -/
def set_value {ε α : Type} (_ : awaitable_result ε α) (v : α) : awaitable_result ε α :=
  .value v

/-- Embeds `awaitable_result<T>::set_exception` (awaitable_result.h:79-83): stores the
exception_ptr verbatim and tags the storage as holding an exception. -/
def set_exception {ε α : Type} (_ : awaitable_result ε α) (e : ε) : awaitable_result ε α :=
  .exception e

end awaitable_result

/-- Embeds `awaitable_result<void>` (awaitable_result.h:120-150): only an optional
captured exception; default constructed means "successful void result". -/
structure awaitable_result_void (ε : Type) where
  m_exception : Option ε
deriving DecidableEq, Repr

namespace awaitable_result_void

/-- Embeds `awaitable_result<void>::operator()` (awaitable_result.h:136-142): rethrows
the stored exception if any, otherwise returns normally. -/
def run {ε : Type} (r : awaitable_result_void ε) : Except (TaskError ε) Unit :=
  match r.m_exception with
  | some e => .error (.carried e)
  | none => .ok ()

/-- Embeds `awaitable_result<void>::set_exception` (awaitable_result.h:146). -/
def set_exception {ε : Type} (_ : awaitable_result_void ε) (e : ε) : awaitable_result_void ε :=
  ⟨some e⟩

end awaitable_result_void

/-- Embeds `task_state<T>` (async/task.h:17-66): the one-word atomic state machine
plus the result slot.  `stateOrCompletion` holds either a sentinel
(`addrs.running`, `addrs.ready`, `0`) or a registered continuation's frame
address. -/
structure task_state (ε α : Type) where
  addrs : Addrs
  stateOrCompletion : Nat
  result : awaitable_result ε α
deriving DecidableEq, Repr

namespace task_state

variable {ε α : Type}

/-- Embeds `running_state()` (async/task.h:30): the state object's own address. -/
def running_state (s : task_state ε α) : Nat := s.addrs.running

/-- Embeds `ready_state()` (async/task.h:32-35): the address of the `result` member. -/
def ready_state (s : task_state ε α) : Nat := s.addrs.ready

/-- Embeds `done_state()` (async/task.h:37): `nullptr`. -/
def done_state (_ : task_state ε α) : Nat := 0

/-- Embeds `is_running()` (async/task.h:39). -/
def is_running (s : task_state ε α) : Bool := s.stateOrCompletion == s.running_state

/-- Embeds `is_ready()` (async/task.h:41). -/
def is_ready (s : task_state ε α) : Bool := s.stateOrCompletion == s.ready_state

/-- Embeds `is_done()` (async/task.h:43). -/
def is_done (s : task_state ε α) : Bool := s.stateOrCompletion == s.done_state

/-- Embeds `is_completion(void* value)` (async/task.h:45-48): a word value denotes a
registered continuation iff it is none of the three sentinels. -/
def is_completion (s : task_state ε α) (value : Nat) : Bool :=
  value != s.running_state && value != s.ready_state && value != s.done_state

/-- Embeds `create_shared()` (async/task.h:23-28): a fresh state starts with the
coordination word at `running_state()` and an unset result slot. -/
def create (a : Addrs) : task_state ε α :=
  { addrs := a, stateOrCompletion := a.running, result := .unset }

/-- Embeds `mark_ready()` (async/task.h:50-65): atomically exchange the coordination
word for `ready_state()`; if the previous value denotes a registered
continuation, return it (as the coroutine handle to resume), else return the
empty handle.  Returns (state after the exchange, optional handle address). -/
def mark_ready (s : task_state ε α) : task_state ε α × Option Nat :=
  let previousStateOrCompletion := s.stateOrCompletion
  let s' := { s with stateOrCompletion := s.ready_state }
  if s.is_completion previousStateOrCompletion then
    (s', some previousStateOrCompletion)
  else
    (s', none)

end task_state

namespace task

variable {ε α : Type}

/-- Embeds `task<T>::await_ready` (async/task.h:81-87): true iff the coordination word
currently holds `ready_state()` or `done_state()`. -/
def await_ready (s : task_state ε α) : Bool :=
  s.stateOrCompletion == s.ready_state || s.stateOrCompletion == s.done_state

/-- Embeds `task<T>::await_suspend` (async/task.h:89-116).  A null handle address is
treated as "run now": return false without touching the coordination word.
Otherwise one `compare_exchange_strong` from `running_state()` to the handle
address: success returns true (suspended); failure returns false if the
observed value was `ready_state()`, and otherwise throws the
"may be co_awaited ... only once" usage error.  Returns the state after the
call together with the outcome. -/
def await_suspend (s : task_state ε α) (handleAddress : Nat) :
    task_state ε α × Except (TaskError ε) Bool :=
  if handleAddress = 0 then
    (s, .ok false)
  else
    if s.stateOrCompletion = s.running_state then
      ({ s with stateOrCompletion := handleAddress }, .ok true)
    else if s.stateOrCompletion ≠ s.ready_state then
      (s, .error .awaitSuspendUsedTwice)
    else
      (s, .ok false)

/-- Embeds `task<T>::await_resume` (async/task.h:118-137).  One
`compare_exchange_strong` from `ready_state()` to `done_state()`: on success
the result slot is read (`m_state->result()`, which returns the stored value or
rethrows the stored exception); on failure, observing `done_state()` throws the
"may be co_awaited ... only once" usage error and any other observed value
throws the "may not be called before await_ready()" usage error. -/
def await_resume (s : task_state ε α) :
    task_state ε α × Except (TaskError ε) α :=
  if s.stateOrCompletion = s.ready_state then
    ({ s with stateOrCompletion := s.done_state }, s.result.run)
  else if s.stateOrCompletion = s.done_state then
    (s, .error .awaitResumeUsedTwice)
  else
    (s, .error .notYetReady)

end task

/-- Embeds `task_completion_state` (task_completion_source.h:11-16): the three-valued
completion-progress flag; `unset` / `setting` / `set` are the spec's
unset / committing / committed. -/
inductive task_completion_state where
  | unset
  | setting
  | set
deriving DecidableEq, Repr

/-- Embeds `task_completion_source_core<T>` (task_completion_source.h:18-161):
a (shared) reference to the task state plus the completion-progress flag. -/
structure task_completion_source_core (ε α : Type) where
  m_taskState : task_state ε α
  m_completionState : task_completion_state
deriving DecidableEq, Repr

/-- Outcome of a `try_set_*` call with a `std::exception_ptr& completionException`
out-parameter: (core after the call, final value of the out-parameter,
returned bool). -/
abbrev try_set_result (ε α : Type) :=
  task_completion_source_core ε α × Option ε × Bool

namespace task_completion_source_core

variable {ε α : Type}

/-- Constructor (task_completion_source.h:21-24): fresh shared task state and
`m_completionState = unset`. -/
def create (a : Addrs) : task_completion_source_core ε α :=
  { m_taskState := task_state.create a, m_completionState := .unset }

/-- Embeds `try_complete` (task_completion_source.h:136-157): clear the out-parameter,
call `mark_ready()`, and if a continuation handle was registered, resume it
(`possibleCompletion()`); an exception raised by the resumption is caught into
the out-parameter and the call returns false, otherwise the call returns true.
`resume h` gives the exception (if any) raised by resuming handle `h`. -/
def try_complete (resume : Nat → Option ε) (c : task_completion_source_core ε α) :
    try_set_result ε α :=
  let step := c.m_taskState.mark_ready
  let c' := { c with m_taskState := step.1 }
  match step.2 with
  | some h =>
    match resume h with
    | some e => (c', some e, false)
    | none => (c', none, true)
  | none => (c', none, true)

/-- Embeds `try_set_value` (task_completion_source.h:44-57): a
`compare_exchange_strong` of the completion flag from `unset` to `setting`;
on failure return false leaving the out-parameter and everything else
untouched; on success write the value into the result slot, set the flag to
`set`, and return the outcome of `try_complete`.  `completionException` is the
value held by the caller's out-parameter at entry. -/
def try_set_value (resume : Nat → Option ε) (c : task_completion_source_core ε α)
    (completionException : Option ε) (v : α) : try_set_result ε α :=
  if c.m_completionState ≠ .unset then
    (c, completionException, false)
  else
    let c1 : task_completion_source_core ε α :=
      { m_taskState := { c.m_taskState with result := c.m_taskState.result.set_value v },
        m_completionState := .set }
    try_complete resume c1

/-- Embeds `set_value` (task_completion_source.h:28-42): call `try_set_value` with a
freshly default-constructed (empty) out-parameter; if it returns false, rethrow
the completion exception when one was reported, else throw the
"already been completed" usage error. -/
def set_value (resume : Nat → Option ε) (c : task_completion_source_core ε α)
    (v : α) : task_completion_source_core ε α × Except (TaskError ε) Unit :=
  let step := try_set_value resume c none v
  if step.2.2 then
    (step.1, .ok ())
  else
    match step.2.1 with
    | some e => (step.1, .error (.carried e))
    | none => (step.1, .error .alreadyCompleted)

/-- Embeds `try_set_exception` (task_completion_source.h:97-115): returns false for an
empty exception_ptr; otherwise the same flag CAS as `try_set_value`, storing
the exception into the result slot on success.  `exception = none` models an
empty `std::exception_ptr`. -/
def try_set_exception (resume : Nat → Option ε) (c : task_completion_source_core ε α)
    (exception : Option ε) (completionException : Option ε) : try_set_result ε α :=
  match exception with
  | none => (c, completionException, false)
  | some e =>
    if c.m_completionState ≠ .unset then
      (c, completionException, false)
    else
      let c1 : task_completion_source_core ε α :=
        { m_taskState := { c.m_taskState with result := c.m_taskState.result.set_exception e },
          m_completionState := .set }
      try_complete resume c1

/-- Embeds `set_exception` (task_completion_source.h:77-95): throws
`std::invalid_argument` for an empty exception_ptr; otherwise calls
`try_set_exception` with an empty out-parameter and, on false, rethrows the
completion exception when one was reported, else throws the
"already been completed" usage error. -/
def set_exception (resume : Nat → Option ε) (c : task_completion_source_core ε α)
    (exception : Option ε) :
    task_completion_source_core ε α × Except (TaskError ε) Unit :=
  match exception with
  | none => (c, .error .invalidArgument)
  | some _ =>
    let step := try_set_exception resume c exception none
    if step.2.2 then
      (step.1, .ok ())
    else
      match step.2.1 with
      | some e => (step.1, .error (.carried e))
      | none => (step.1, .error .alreadyCompleted)

/-- One completion attempt against a core: a `try_set_value` or a
`try_set_exception`, with the argument the attempt carries.  Used to state the
"at most one writer across any sequence of attempts" guarantee
(task_completion_source.h:44-57, 97-115). -/
inductive set_attempt (ε α : Type) where
  | setValue (v : α)
  | setException (exception : Option ε)
deriving DecidableEq, Repr

/-- Apply one attempt (with an empty out-parameter, as the strict `set_*`
wrappers do). -/
def run_attempt (resume : Nat → Option ε) (c : task_completion_source_core ε α) :
    set_attempt ε α → try_set_result ε α
  | .setValue v => try_set_value resume c none v
  | .setException exception => try_set_exception resume c exception none

/-- Run a sequence of completion attempts, counting how many of them changed
the contents of the result slot. -/
def run_attempts [DecidableEq ε] [DecidableEq α]
    (resume : Nat → Option ε) (c : task_completion_source_core ε α) :
    List (set_attempt ε α) → task_completion_source_core ε α × Nat
  | [] => (c, 0)
  | a :: rest =>
    let step := run_attempt resume c a
    let wrote := if step.1.m_taskState.result ≠ c.m_taskState.result then 1 else 0
    let next := run_attempts resume step.1 rest
    (next.1, wrote + next.2)

end task_completion_source_core

/-- How a producer-side component refers to the shared `task_state`:
an owning `std::shared_ptr` or a non-owning `std::weak_ptr`. -/
inductive ref_kind where
  | owning
  | weak
deriving DecidableEq, Repr

/-- Embeds `task_completion_source_core<T>::m_taskState`
(task_completion_source.h:159) is declared
`std::shared_ptr<task_state<T>> m_taskState;` — an owning reference. -/
def task_completion_source_core_taskState_ref : ref_kind := .owning

/-- Embeds `task_promise_type<T>::m_state` (async/task.h:220) is declared
`std::weak_ptr<task_state<T>> m_state;` — a non-owning reference. -/
def task_promise_type_state_ref : ref_kind := .weak

/-- Embeds `task<T>::m_state` (async/task.h:140) is declared
`std::shared_ptr<details::task_state<T>> m_state;` — the owning reference held
by the consumer-side handle. -/
def task_handle_state_ref : ref_kind := .owning

/-- Embeds `get_completion` (async/task.h:146-162): lock the weak ref; if the state is
gone return the empty handle, else `mark_ready()` and pass its result through.
The `Option (task_state ε α)` argument is the outcome of `state.lock()`. -/
def get_completion {ε α : Type} (state : Option (task_state ε α)) :
    Option (task_state ε α) × Option Nat :=
  match state with
  | none => (none, none)
  | some sharedState =>
    let (ts, possibleCompletion) := sharedState.mark_ready
    (some ts, possibleCompletion)

/-- Embeds `run_completion_if_exists` (async/task.h:164-179): call `get_completion`
and, if a handle came back, invoke it (`possibleCompletion()`) as a nested call
within the current frame.  Returns the state (as updated) and the list of
handles invoked. -/
def run_completion_if_exists {ε α : Type} (state : Option (task_state ε α)) :
    Option (task_state ε α) × List Nat :=
  match get_completion state with
  | (st, some h) => (st, [h])
  | (st, none) => (st, [])

/-- Embeds `symmetric_transfer<T>::await_suspend` (task.h:115-130): lock the weak ref;
if alive, exchange the coordination word for ready and, if the previous value
was a registered continuation, RETURN that handle to the coroutine machinery
(symmetric transfer); in every other case return `noop_coroutine()`, modelled
as `none`.  Nothing is invoked inside this frame. -/
def symmetric_transfer_await_suspend {ε α : Type} (state : Option (task_state ε α)) :
    Option (task_state ε α) × Option Nat :=
  match state with
  | none => (none, none)
  | some s =>
    let stateOrCompletion := s.stateOrCompletion
    let s' := { s with stateOrCompletion := s.ready_state }
    if s.is_completion stateOrCompletion then
      (some s', some stateOrCompletion)
    else
      (some s', none)

/-- Embeds `task_promise_type<T>::return_value` (async/task.h:209-217): lock the weak
reference to the task state; write the value into the result slot only when the
state is still alive, else do nothing. -/
def task_promise_return_value {ε α : Type} (state : Option (task_state ε α)) (v : α) :
    Option (task_state ε α) :=
  match state with
  | none => none
  | some s => some { s with result := s.result.set_value v }

/-- Embeds `task_promise_type<T>::unhandled_exception` (async/task.h:199-207): lock
the weak reference; store the current exception only when the state is still
alive, else do nothing. -/
def task_promise_unhandled_exception {ε α : Type} (state : Option (task_state ε α)) (e : ε) :
    Option (task_state ε α) :=
  match state with
  | none => none
  | some s => some { s with result := s.result.set_exception e }

/-- Embeds `then_task_factory<T, Awaitable, Continuation>::create`
(awaitable_then.h:24-43): await the awaitable inside a try/catch, recording the
outcome in a local `awaitable_result` via `set_value` / `set_exception`, then
invoke the continuation once with that result.  The awaitable is modelled by
its eventual outcome `Except ε α`; the continuation is a state transformer so
its invocations are observable. -/
def then_task_factory_create {ε α σ : Type} (awaitable : Except ε α)
    (continuation : awaitable_result ε α → σ → σ) (s : σ) : σ :=
  let result : awaitable_result ε α := .unset
  let result :=
    match awaitable with
    | .ok v => result.set_value v
    | .error e => result.set_exception e
  continuation result s

/-- Embeds `awaitable_then` (awaitable_then.h:69-75): forwards to
`then_task_factory::create`. -/
def awaitable_then {ε α σ : Type} (awaitable : Except ε α)
    (continuation : awaitable_result ε α → σ → σ) (s : σ) : σ :=
  then_task_factory_create awaitable continuation s

/-- The result object `then_task_factory::create` hands its continuation. -/
def then_passed_result {ε α : Type} (awaitable : Except ε α) : awaitable_result ε α :=
  then_task_factory_create awaitable (fun r _ => r) awaitable_result.unset

/-- A chain of n suspended dependent consumers: each task's coordination word
already holds the frame address `h` of the consumer coroutine awaiting it
(that consumer's own completion is the next element of the chain). -/
def chain {ε α : Type} (a : Addrs) (h : Nat) : Nat → List (task_state ε α)
  | 0 => []
  | n + 1 => { addrs := a, stateOrCompletion := h, result := .unset } :: chain a h n

/-- Stack depth of completing such a chain under `include/async/task.h`: each
completing coroutine's `final_suspend` calls `run_completion_if_exists`, which
invokes the woken continuation with a nested call (`possibleCompletion()`,
async/task.h:177) while the current frame is still live; the resumed consumer
runs to its own `final_suspend` and performs the next completion of the chain
before that nested call returns, so the completion frames stack up. -/
def complete_chain_nested_depth {ε α : Type} : List (task_state ε α) → Nat
  | [] => 0
  | s :: rest =>
    match run_completion_if_exists (some s) with
    | (_, []) => 1
    | (_, _ :: _) => 1 + complete_chain_nested_depth rest

/-- Stack depth of completing the same chain under `include/task.h`: the
completing coroutine's `final_suspend` is a `symmetric_transfer` whose
`await_suspend` RETURNS the woken handle (task.h:125); the coroutine machinery
destroys the current frame before resuming the returned handle, so each
completion's frame replaces the previous one instead of nesting. -/
def complete_chain_tail_depth {ε α : Type} : List (task_state ε α) → Nat
  | [] => 0
  | s :: rest =>
    match symmetric_transfer_await_suspend (some s) with
    | (_, none) => 1
    | (_, some _) => max 1 (complete_chain_tail_depth rest)

/-- Number of times the consumer's continuation gets to run out of one
suspend/complete interaction: once if the completer's `mark_ready` returned a
registered handle (which the completer then resumes), and once if the
consumer's `await_suspend` returned false (the consumer then continues
synchronously). -/
def resumption_count {ε : Type} (suspendOutcome : Except (TaskError ε) Bool)
    (completionHandle : Option Nat) : Nat :=
  (if completionHandle.isSome then 1 else 0) +
    (match suspendOutcome with
     | .ok false => 1
     | _ => 0)

/-! ## Claims -/

/-- C10: for every task state, `await_suspend` with a null coroutine-handle
address returns false immediately, leaving the state (in particular the
coordination word) untouched, even while the task is still Running — the empty
continuation is treated as "run now", so the null Terminal sentinel can never
be registered as a continuation (async/task.h:89-101, task.h:55-64). -/
theorem c10_null_handle_runs_now : ∀ (ε α : Type) (s : task_state ε α),
    task.await_suspend s 0 = (s, .ok false) := by
  intro ε α s
  simp [task.await_suspend]

/-- C1: for every task state and non-null handle distinct from the sentinel
addresses, `await_suspend` performs a single compare-and-swap of the
coordination word from Running to the handle: on success it returns true; on
failure observing Ready it returns false; on failure observing anything else
(Terminal or an already-registered continuation) it throws the "may be
co_awaited ... only once" usage error (async/task.h:89-116, task.h:55-79). -/
theorem c1_await_suspend_single_cas {ε α : Type} (s : task_state ε α)
    (h : Nat) (hz : h ≠ 0) :
    (s.stateOrCompletion = s.running_state →
      task.await_suspend s h = ({ s with stateOrCompletion := h }, .ok true)) ∧
    (s.stateOrCompletion ≠ s.running_state → s.stateOrCompletion = s.ready_state →
      task.await_suspend s h = (s, .ok false)) ∧
    (s.stateOrCompletion ≠ s.running_state → s.stateOrCompletion ≠ s.ready_state →
      task.await_suspend s h = (s, .error .awaitSuspendUsedTwice)) := by
  refine ⟨?_, ?_, ?_⟩
  · intro h1
    simp [task.await_suspend, hz, h1]
  · intro h1 h2
    rw [h2] at h1
    simp [task.await_suspend, hz, h2, h1]
  · intro h1 h2
    simp [task.await_suspend, hz, h1, h2]

/-- C1 witness: concrete Running, Ready and already-registered states,
with handle address 7. -/
theorem c1_witness :
    task.await_suspend (task_state.create (ε := Nat) (α := Nat) ⟨1, 2⟩) 7 =
      (⟨⟨1, 2⟩, 7, .unset⟩, .ok true) ∧
    task.await_suspend (⟨⟨1, 2⟩, 2, .unset⟩ : task_state Nat Nat) 7 =
      (⟨⟨1, 2⟩, 2, .unset⟩, .ok false) ∧
    task.await_suspend (⟨⟨1, 2⟩, 9, .unset⟩ : task_state Nat Nat) 7 =
      (⟨⟨1, 2⟩, 9, .unset⟩, .error .awaitSuspendUsedTwice) := by
  refine ⟨?_, ?_, ?_⟩
  · exact (c1_await_suspend_single_cas (task_state.create ⟨1, 2⟩) 7 (by decide)).1 (by decide)
  · exact (c1_await_suspend_single_cas ⟨⟨1, 2⟩, 2, .unset⟩ 7 (by decide)).2.1 (by decide) (by decide)
  · exact (c1_await_suspend_single_cas ⟨⟨1, 2⟩, 9, .unset⟩ 7 (by decide)).2.2 (by decide) (by decide)

/-- C2: for every task state, `mark_ready` exchanges the coordination word for
Ready and inspects the previous value: a previous value that is none of the
three sentinels is returned as the registered continuation handle; a previous
value of Running yields the empty handle and nothing further happens.  For
both orderings of {register_continuation, complete} on a fresh state exactly
one resumption occurs (async/task.h:45-48, 50-65). -/
theorem c2_mark_ready_exactly_one_resumption {ε α : Type} (s : task_state ε α)
    (a : Addrs) (h : Nat) (hwf : a.wf) (hz : h ≠ 0) (hr : h ≠ a.running)
    (hy : h ≠ a.ready) :
    ((s.mark_ready).1 = { s with stateOrCompletion := s.ready_state }) ∧
    (s.is_completion s.stateOrCompletion = true →
      (s.mark_ready).2 = some s.stateOrCompletion) ∧
    (s.stateOrCompletion = s.running_state → (s.mark_ready).2 = none) ∧
    (task.await_suspend (task_state.create a) h =
        ((⟨a, h, .unset⟩ : task_state ε α), .ok true) ∧
      (⟨a, h, .unset⟩ : task_state ε α).mark_ready = (⟨a, a.ready, .unset⟩, some h) ∧
      resumption_count (ε := ε) (.ok true) (some h) = 1) ∧
    ((task_state.create (ε := ε) (α := α) a).mark_ready = (⟨a, a.ready, .unset⟩, none) ∧
      task.await_suspend (⟨a, a.ready, .unset⟩ : task_state ε α) h =
        (⟨a, a.ready, .unset⟩, .ok false) ∧
      resumption_count (ε := ε) (.ok false) none = 1) := by
  obtain ⟨hwf1, hwf2, hwf3⟩ := hwf
  refine ⟨?_, ?_, ?_, ⟨?_, ?_, ?_⟩, ⟨?_, ?_, ?_⟩⟩
  · by_cases hc : s.is_completion s.stateOrCompletion = true <;>
      simp [task_state.mark_ready, hc]
  · intro hc
    simp [task_state.mark_ready, hc]
  · intro hc
    simp [task_state.mark_ready, task_state.is_completion, hc]
  · simp [task.await_suspend, task_state.create, task_state.running_state, hz]
  · simp [task_state.mark_ready, task_state.is_completion, task_state.running_state,
      task_state.ready_state, task_state.done_state, hz, hr, hy]
  · simp [resumption_count]
  · simp [task_state.mark_ready, task_state.is_completion, task_state.create,
      task_state.running_state, task_state.ready_state, task_state.done_state]
  · simp [task.await_suspend, task_state.running_state, task_state.ready_state, hz,
      Ne.symm hwf3]
  · simp [resumption_count]

/-- C2 witness: concrete addresses (running = 1, ready = 2) and handle 7. -/
theorem c2_witness :
    ((⟨⟨1, 2⟩, 7, .unset⟩ : task_state Nat Nat).mark_ready =
      (⟨⟨1, 2⟩, 2, .unset⟩, some 7)) ∧
    ((task_state.create (ε := Nat) (α := Nat) ⟨1, 2⟩).mark_ready =
      (⟨⟨1, 2⟩, 2, .unset⟩, none)) := by
  have hc := c2_mark_ready_exactly_one_resumption
    (ε := Nat) (α := Nat) (⟨⟨1, 2⟩, 7, .unset⟩ : task_state Nat Nat) ⟨1, 2⟩ 7
    (by decide) (by decide) (by decide) (by decide)
  exact ⟨hc.2.2.2.1.2.1, hc.2.2.2.2.1⟩

/-- C3: for every task state (with distinguishable sentinels), `await_resume`
attempts a compare-and-swap of the coordination word from Ready to Terminal:
on success the stored result is extracted (value returned, failure re-raised);
on failure observing Terminal the "only once" (already consumed) usage error is
thrown; on failure with any other observed value the "not yet ready" usage
error is thrown.  In particular, after `set_failure(e)` a first consume
re-raises `e` and a second consume throws the usage error, not `e` again
(async/task.h:118-137, task.h:81-100). -/
theorem c3_await_resume_consume_once {ε α : Type} (s : task_state ε α) (e : ε)
    (hwf : s.addrs.wf) :
    (s.stateOrCompletion = s.ready_state →
      task.await_resume s = ({ s with stateOrCompletion := s.done_state }, s.result.run)) ∧
    (s.stateOrCompletion = s.done_state →
      task.await_resume s = (s, .error .awaitResumeUsedTwice)) ∧
    (s.stateOrCompletion ≠ s.ready_state → s.stateOrCompletion ≠ s.done_state →
      task.await_resume s = (s, .error .notYetReady)) ∧
    (task.await_resume (⟨s.addrs, s.addrs.ready, .exception e⟩ : task_state ε α) =
        (⟨s.addrs, 0, .exception e⟩, .error (.carried e)) ∧
      task.await_resume (⟨s.addrs, 0, .exception e⟩ : task_state ε α) =
        (⟨s.addrs, 0, .exception e⟩, .error .awaitResumeUsedTwice)) := by
  obtain ⟨hwf1, hwf2, hwf3⟩ := hwf
  refine ⟨?_, ?_, ?_, ?_, ?_⟩
  · intro h1
    simp [task.await_resume, h1]
  · intro h1
    by_cases h2 : s.stateOrCompletion = s.ready_state
    · rw [h2] at h1
      exact absurd h1 hwf2
    · simp [task.await_resume, h1, h2]
      intro hc
      exact absurd hc (by simp [task_state.done_state, task_state.ready_state, Ne.symm hwf2])
  · intro h1 h2
    simp [task.await_resume, h1, h2]
  · simp [task.await_resume, task_state.ready_state, task_state.done_state,
      awaitable_result.run]
  · simp [task.await_resume, task_state.ready_state, task_state.done_state,
      Ne.symm hwf2]

/-- C3 witness: addresses (running = 1, ready = 2), carried failure 5. -/
theorem c3_witness :
    task.await_resume (⟨⟨1, 2⟩, 2, .exception 5⟩ : task_state Nat Nat) =
      (⟨⟨1, 2⟩, 0, .exception 5⟩, .error (.carried 5)) ∧
    task.await_resume (⟨⟨1, 2⟩, 0, .exception 5⟩ : task_state Nat Nat) =
      (⟨⟨1, 2⟩, 0, .exception 5⟩, .error .awaitResumeUsedTwice) := by
  exact (c3_await_resume_consume_once (⟨⟨1, 2⟩, 2, .exception 5⟩ : task_state Nat Nat) 5
    (by decide)).2.2.2

/-- C5: a failure stored by `set_exception` (on `awaitable_result<T>` or
`awaitable_result<void>`) is re-raised with the exact same identity when the
result is read: store-then-read is a round-trip that never interprets, wraps or
swallows the failure.  The same holds through the whole completion-source
pipeline: `try_set_exception` then `await_resume` re-raises the same `e`
(awaitable_result.h:55-83, 136-146; task_completion_source.h:97-115). -/
theorem c5_failure_identity_round_trip :
    ∀ (ε α : Type) (e : ε) (r : awaitable_result ε α) (rv : awaitable_result_void ε)
      (a : Addrs) (resume : Nat → Option ε),
    (r.set_exception e).run = .error (.carried e) ∧
    (rv.set_exception e).run = .error (.carried e) ∧
    (task.await_resume
        ((task_completion_source_core.create (ε := ε) (α := α) a).try_set_exception
          resume (some e) none).1.m_taskState).2 = .error (.carried e) := by
  intro ε α e r rv a resume
  refine ⟨rfl, rfl, ?_⟩
  simp [task_completion_source_core.create, task_completion_source_core.try_set_exception,
    task_completion_source_core.try_complete, task_state.create, task_state.mark_ready,
    task_state.is_completion, task_state.running_state, task_state.ready_state,
    task_state.done_state, awaitable_result.set_exception, task.await_resume,
    awaitable_result.run]

/-- Helper: `mark_ready` always moves the coordination word to `ready_state()`,
whatever the previous value was. -/
theorem mark_ready_state {ε α : Type} (s : task_state ε α) :
    (s.mark_ready).1 = { s with stateOrCompletion := s.ready_state } := by
  by_cases hc : s.is_completion s.stateOrCompletion = true <;>
    simp [task_state.mark_ready, hc]

/-- Helper: `try_complete` only moves the coordination word to ready; it changes
neither the result slot nor the completion-progress flag. -/
theorem try_complete_state {ε α : Type} (resume : Nat → Option ε)
    (c : task_completion_source_core ε α) :
    (task_completion_source_core.try_complete resume c).1 =
      { c with m_taskState :=
          { c.m_taskState with stateOrCompletion := c.m_taskState.ready_state } } := by
  unfold task_completion_source_core.try_complete
  cases h : (c.m_taskState.mark_ready).2 with
  | none => simp [h, mark_ready_state]
  | some hh => cases hr : resume hh <;> simp [h, hr, mark_ready_state]

/-- Helper: `try_complete` either succeeds with an empty out-parameter or fails with
the resumption exception in the out-parameter; it never fails silently. -/
theorem try_complete_out {ε α : Type} (resume : Nat → Option ε)
    (c : task_completion_source_core ε α) :
    (task_completion_source_core.try_complete resume c).2 = (none, true) ∨
    ∃ e, (task_completion_source_core.try_complete resume c).2 = (some e, false) := by
  unfold task_completion_source_core.try_complete
  cases h : (c.m_taskState.mark_ready).2 with
  | none => left; simp [h]
  | some hh =>
    cases hr : resume hh with
    | none => left; simp [h, hr]
    | some e => right; exact ⟨e, by simp [h, hr]⟩

/-- A completion attempt against a core whose flag is no longer unset is a
no-op returning false with an empty out-parameter. -/
theorem run_attempt_stuck {ε α : Type} (resume : Nat → Option ε)
    (c : task_completion_source_core ε α) (att : task_completion_source_core.set_attempt ε α)
    (ha : c.m_completionState ≠ .unset) :
    task_completion_source_core.run_attempt resume c att = (c, none, false) := by
  cases att with
  | setValue v =>
    simp [task_completion_source_core.run_attempt,
      task_completion_source_core.try_set_value, ha]
  | setException ex =>
    cases ex <;> simp [task_completion_source_core.run_attempt,
      task_completion_source_core.try_set_exception, ha]

/-- Once the flag has left unset, any sequence of further attempts leaves the
core untouched and performs no writes. -/
theorem run_attempts_stuck {ε α : Type} [DecidableEq ε] [DecidableEq α]
    (resume : Nat → Option ε) (c : task_completion_source_core ε α)
    (l : List (task_completion_source_core.set_attempt ε α))
    (ha : c.m_completionState ≠ .unset) :
    task_completion_source_core.run_attempts resume c l = (c, 0) := by
  induction l with
  | nil => rfl
  | cons a rest ih =>
    simp [task_completion_source_core.run_attempts, run_attempt_stuck resume c a ha, ih]

/-- One attempt against an unset core either leaves it untouched (empty
exception_ptr) or drives the flag to `set`. -/
theorem run_attempt_unset {ε α : Type} (resume : Nat → Option ε)
    (c : task_completion_source_core ε α) (att : task_completion_source_core.set_attempt ε α)
    (hu : c.m_completionState = .unset) :
    (task_completion_source_core.run_attempt resume c att).1 = c ∨
    (task_completion_source_core.run_attempt resume c att).1.m_completionState = .set := by
  cases att with
  | setValue v =>
    right
    simp [task_completion_source_core.run_attempt,
      task_completion_source_core.try_set_value, hu, try_complete_state]
  | setException ex =>
    cases ex with
    | none =>
      left
      simp [task_completion_source_core.run_attempt,
        task_completion_source_core.try_set_exception]
    | some e =>
      right
      simp [task_completion_source_core.run_attempt,
        task_completion_source_core.try_set_exception, hu, try_complete_state]

/-- Across any sequence of attempts starting from an unset core, at most one
attempt writes into the result slot. -/
theorem run_attempts_write_bound {ε α : Type} [DecidableEq ε] [DecidableEq α]
    (resume : Nat → Option ε) (l : List (task_completion_source_core.set_attempt ε α)) :
    ∀ c : task_completion_source_core ε α, c.m_completionState = .unset →
      (task_completion_source_core.run_attempts resume c l).2 ≤ 1 := by
  induction l with
  | nil =>
    intro c hu
    simp [task_completion_source_core.run_attempts]
  | cons a rest ih =>
    intro c hu
    have hunfold : (task_completion_source_core.run_attempts resume c (a :: rest)).2 =
        (if (task_completion_source_core.run_attempt resume c a).1.m_taskState.result ≠
            c.m_taskState.result then 1 else 0) +
          (task_completion_source_core.run_attempts resume
            (task_completion_source_core.run_attempt resume c a).1 rest).2 := rfl
    rcases run_attempt_unset resume c a hu with hc | hset
    · rw [hunfold, hc]
      simpa using ih c hu
    · rw [hunfold,
        run_attempts_stuck resume _ rest (by rw [hset]; intro hcontra; cases hcontra)]
      split <;> simp

/-- C4: the strict `set_value` / `set_exception` raise "already completed"
exactly when the completion-progress flag is not unset, and at most one set
attempt across any sequence writes into the result slot: the winner claims the
flag, writes the result, sets the flag to `set` and calls complete (moving the
coordination word to ready), while every loser returns false (for the `try_`
variants) leaving the slot, the core and the out-parameter unchanged
(task_completion_source.h:28-57, 77-115). -/
theorem c4_single_writer {ε α : Type} [DecidableEq ε] [DecidableEq α]
    (resume : Nat → Option ε) (c : task_completion_source_core ε α) (v : α) (e : ε)
    (ce : Option ε) (l : List (task_completion_source_core.set_attempt ε α)) (a : Addrs) :
    (c.m_completionState ≠ .unset →
      c.try_set_value resume ce v = (c, ce, false) ∧
      c.try_set_exception resume (some e) ce = (c, ce, false) ∧
      c.set_value resume v = (c, .error .alreadyCompleted) ∧
      c.set_exception resume (some e) = (c, .error .alreadyCompleted)) ∧
    (c.m_completionState = .unset →
      (c.try_set_value resume ce v).1.m_taskState.result = .value v ∧
      (c.try_set_value resume ce v).1.m_completionState = .set ∧
      (c.try_set_value resume ce v).1.m_taskState.stateOrCompletion =
        c.m_taskState.ready_state ∧
      (c.set_value resume v).2 ≠ .error .alreadyCompleted) ∧
    (task_completion_source_core.run_attempts resume
      (task_completion_source_core.create (ε := ε) (α := α) a) l).2 ≤ 1 := by
  refine ⟨?_, ?_, ?_⟩
  · intro ha
    refine ⟨?_, ?_, ?_, ?_⟩
    · simp [task_completion_source_core.try_set_value, ha]
    · simp [task_completion_source_core.try_set_exception, ha]
    · simp [task_completion_source_core.set_value,
        task_completion_source_core.try_set_value, ha]
    · simp [task_completion_source_core.set_exception,
        task_completion_source_core.try_set_exception, ha]
  · intro hu
    have hval : c.try_set_value resume ce v =
        task_completion_source_core.try_complete resume
          { m_taskState := { c.m_taskState with result := c.m_taskState.result.set_value v },
            m_completionState := .set } := by
      simp [task_completion_source_core.try_set_value, hu]
    refine ⟨?_, ?_, ?_, ?_⟩
    · rw [hval, try_complete_state]
      rfl
    · rw [hval, try_complete_state]
    · rw [hval, try_complete_state]
      rfl
    · have hval0 : task_completion_source_core.try_set_value resume c none v =
          task_completion_source_core.try_complete resume
            { m_taskState := { c.m_taskState with result := c.m_taskState.result.set_value v },
              m_completionState := .set } := by
        simp [task_completion_source_core.try_set_value, hu]
      rcases try_complete_out resume
          { m_taskState := { c.m_taskState with result := c.m_taskState.result.set_value v },
            m_completionState := .set } with hout | ⟨e2, hout⟩ <;>
        simp [task_completion_source_core.set_value, hval0, hout]
  · exact run_attempts_write_bound resume l _ rfl

/-- C4 witness: an already-completed core refuses with "already completed";
a two-attempt race from a fresh core performs at most one slot write. -/
theorem c4_witness :
    ((⟨⟨⟨1, 2⟩, 2, .value 9⟩, .set⟩ : task_completion_source_core Nat Nat).set_value
        (fun _ => none) 5).2 = .error .alreadyCompleted ∧
    (task_completion_source_core.run_attempts (fun _ => none)
      (task_completion_source_core.create (ε := Nat) (α := Nat) ⟨1, 2⟩)
      [.setValue 1, .setValue 2]).2 ≤ 1 := by
  have h := c4_single_writer (ε := Nat) (α := Nat) (fun _ => none)
    ⟨⟨⟨1, 2⟩, 2, .value 9⟩, .set⟩ 5 0 none [.setValue 1, .setValue 2] ⟨1, 2⟩
  refine ⟨?_, h.2.2⟩
  rw [(h.1 (by decide)).2.2.1]

/-- Helper: `mark_ready` on a state whose word holds a registered continuation returns
that handle. -/
theorem mark_ready_completion {ε α : Type} (s : task_state ε α)
    (hc : s.is_completion s.stateOrCompletion = true) :
    s.mark_ready = ({ s with stateOrCompletion := s.ready_state }, some s.stateOrCompletion) := by
  simp [task_state.mark_ready, hc]

/-- C6: the `try_set_*` overloads with a `completionException` out-parameter
report a failure raised while resuming the woken continuation distinctly from
losing the completion race: losing the race returns false with the
out-parameter left untouched (empty if passed empty), while a resumption
failure returns false with the out-parameter holding that failure; the strict
`set_*` re-raise the resumption failure instead of reporting "already
completed" (task_completion_source.h:28-57, 77-115, 136-157). -/
theorem c6_completion_failure_not_conflated {ε α : Type} (resume : Nat → Option ε)
    (c : task_completion_source_core ε α) (v : α) (e exc : ε) (ce : Option ε) :
    (c.m_completionState ≠ .unset →
      c.try_set_value resume ce v = (c, ce, false) ∧
      c.try_set_exception resume (some exc) ce = (c, ce, false)) ∧
    (c.m_completionState = .unset →
      c.m_taskState.is_completion c.m_taskState.stateOrCompletion = true →
      resume c.m_taskState.stateOrCompletion = some e →
      (c.try_set_value resume ce v).2 = (some e, false) ∧
      (c.try_set_exception resume (some exc) ce).2 = (some e, false) ∧
      (c.set_value resume v).2 = .error (.carried e) ∧
      (c.set_exception resume (some exc)).2 = .error (.carried e)) := by
  constructor
  · intro ha
    constructor
    · simp [task_completion_source_core.try_set_value, ha]
    · simp [task_completion_source_core.try_set_exception, ha]
  · intro hu hcomp hres
    have hmrv := mark_ready_completion
      ({ c.m_taskState with result := c.m_taskState.result.set_value v }) hcomp
    have hmre := mark_ready_completion
      ({ c.m_taskState with result := c.m_taskState.result.set_exception exc }) hcomp
    have h1 : (c.try_set_value resume ce v).2 = (some e, false) := by
      simp [task_completion_source_core.try_set_value, hu,
        task_completion_source_core.try_complete, hmrv, hres]
    have h2 : (c.try_set_exception resume (some exc) ce).2 = (some e, false) := by
      simp [task_completion_source_core.try_set_exception, hu,
        task_completion_source_core.try_complete, hmre, hres]
    have h1' : (task_completion_source_core.try_set_value resume c none v).2 =
        (some e, false) := by
      simp [task_completion_source_core.try_set_value, hu,
        task_completion_source_core.try_complete, hmrv, hres]
    have h2' : (task_completion_source_core.try_set_exception resume c (some exc) none).2 =
        (some e, false) := by
      simp [task_completion_source_core.try_set_exception, hu,
        task_completion_source_core.try_complete, hmre, hres]
    refine ⟨h1, h2, ?_, ?_⟩
    · simp [task_completion_source_core.set_value, h1']
    · simp [task_completion_source_core.set_exception, h2']

/-- C6 witness: a fresh core with continuation handle 7 registered and a
resumption that throws 99. -/
theorem c6_witness :
    ((⟨⟨⟨1, 2⟩, 7, .unset⟩, .unset⟩ : task_completion_source_core Nat Nat).try_set_value
        (fun _ => some 99) none 5).2 = (some 99, false) ∧
    ((⟨⟨⟨1, 2⟩, 7, .unset⟩, .unset⟩ : task_completion_source_core Nat Nat).set_value
        (fun _ => some 99) 5).2 = .error (.carried 99) := by
  have h := (c6_completion_failure_not_conflated (ε := Nat) (α := Nat) (fun _ => some 99)
    ⟨⟨⟨1, 2⟩, 7, .unset⟩, .unset⟩ 5 99 3 none).2 (by decide) (by decide) (by decide)
  exact ⟨h.1, h.2.2.1⟩

/-- C7 counterexample: the claim says the completion-source (producer) side
holds only a non-owning reference to the shared task state, but
`task_completion_source_core<T>::m_taskState` (task_completion_source.h:159) is
declared `std::shared_ptr<task_state<T>>` — an owning reference. -/
theorem c7_counterexample :
    task_completion_source_core_taskState_ref = ref_kind.owning ∧
    ¬ task_completion_source_core_taskState_ref = ref_kind.weak :=
  ⟨rfl, by decide⟩

/-- C7 amended: the coroutine-promise producer side (`task_promise_type`)
holds the non-owning (weak) reference while the task handle holds the owning
one, so when the consumer drops its reference before completion the state is
freed and a later completion through the promise is a silent no-op — the weak
lock fails, so no result is written, no continuation is resumed and no error is
raised (in both `run_completion_if_exists` and `symmetric_transfer`); the
`task_completion_source`, by contrast, holds an owning (shared) reference
(async/task.h:140, 146-179, 199-220; task.h:115-130;
task_completion_source.h:159). -/
theorem c7_weak_promise_dead_state_noop :
    task_promise_type_state_ref = ref_kind.weak ∧
    task_handle_state_ref = ref_kind.owning ∧
    task_completion_source_core_taskState_ref = ref_kind.owning ∧
    (∀ (ε α : Type), run_completion_if_exists (ε := ε) (α := α) none = (none, [])) ∧
    (∀ (ε α : Type), get_completion (ε := ε) (α := α) none = (none, none)) ∧
    (∀ (ε α : Type) (v : α), task_promise_return_value (ε := ε) none v = none) ∧
    (∀ (ε α : Type) (e : ε), task_promise_unhandled_exception (α := α) none e = none) ∧
    (∀ (ε α : Type), symmetric_transfer_await_suspend (ε := ε) (α := α) none = (none, none)) := by
  refine ⟨rfl, rfl, rfl, ?_, ?_, ?_, ?_, ?_⟩ <;> intros <;> rfl

/-- Completing a chain of n dependent tasks through async/task.h's
`run_completion_if_exists` uses stack depth n: every completion invokes the
next continuation as a nested call. -/
theorem chain_nested_growth (n : Nat) :
    complete_chain_nested_depth (chain (ε := Nat) (α := Nat) ⟨1, 2⟩ 7 n) = n := by
  induction n with
  | zero => rfl
  | succ k ih =>
    have hstep : run_completion_if_exists (ε := Nat) (α := Nat)
        (some ⟨⟨1, 2⟩, 7, .unset⟩) = (some ⟨⟨1, 2⟩, 2, .unset⟩, [7]) := rfl
    simp [chain, complete_chain_nested_depth, hstep, ih]
    omega

/-- Completing the same chain through task.h's `symmetric_transfer` keeps the
stack depth at one frame: each completion returns the next handle and its frame
is replaced, not stacked. -/
theorem chain_tail_bounded (n : Nat) :
    complete_chain_tail_depth (chain (ε := Nat) (α := Nat) ⟨1, 2⟩ 7 n) ≤ 1 := by
  induction n with
  | zero => decide
  | succ k ih =>
    have hstep : symmetric_transfer_await_suspend (ε := Nat) (α := Nat)
        (some ⟨⟨1, 2⟩, 7, .unset⟩) = (some ⟨⟨1, 2⟩, 2, .unset⟩, some 7) := rfl
    simp [chain, complete_chain_tail_depth, hstep]
    exact ih

/-- C8 counterexample: under `include/async/task.h` the woken continuation is
resumed by a nested call (`possibleCompletion()` inside
`run_completion_if_exists`, async/task.h:164-179), not a tail operation, so the
stack depth of completing a chain of N dependent tasks is NOT bounded
independently of N. -/
theorem c8_counterexample :
    ¬ ∃ B : Nat, ∀ n : Nat,
      complete_chain_nested_depth (chain (ε := Nat) (α := Nat) ⟨1, 2⟩ 7 n) ≤ B := by
  rintro ⟨B, hB⟩
  have h := hB (B + 1)
  rw [chain_nested_growth] at h
  omega

/-- C8 amended: in the `include/task.h` implementation the woken consumer is
resumed as a tail operation — `symmetric_transfer::await_suspend` returns the
handle (task.h:108-136) — so chains of N dependent tasks complete in stack
depth bounded independently of N; in the `include/async/task.h` implementation
`run_completion_if_exists` invokes the woken continuation as a nested call
inside `final_suspend`, so the same chain uses stack depth proportional to N. -/
theorem c8_tail_vs_nested_depth :
    (∀ n : Nat, complete_chain_tail_depth (chain (ε := Nat) (α := Nat) ⟨1, 2⟩ 7 n) ≤ 1) ∧
    (∀ n : Nat, complete_chain_nested_depth (chain (ε := Nat) (α := Nat) ⟨1, 2⟩ 7 n) = n) :=
  ⟨chain_tail_bounded, chain_nested_growth⟩

/-- C9: `awaitable_then` invokes the supplied callback exactly once — the
adapter's whole effect is one application of the continuation — passing it a
result accessor whose invocation returns the awaitable's value or re-raises
(same identity) the failure the awaitable completed with
(awaitable_then.h:24-64, 69-75). -/
theorem c9_callback_exactly_once :
    ∀ (ε α σ : Type) (aw : Except ε α) (k : awaitable_result ε α → σ → σ) (s : σ),
      awaitable_then aw k s = k (then_passed_result aw) s ∧
      then_task_factory_create aw (fun _ n => n + 1) (0 : Nat) = 1 ∧
      (then_passed_result aw).run = (match aw with
        | .ok v => Except.ok v
        | .error e => Except.error (.carried e)) := by
  intro ε α σ aw k s
  refine ⟨?_, ?_, ?_⟩ <;> cases aw <;> rfl

end CppAsync
